import Mathlib

/-!
Shallow embedding of the workspace manager's core: the workspace state
store (src/state/workspaceStore.ts) and the export/import adapter
(src/services/exportImportService.ts).

Conventions of the embedding:
* JavaScript `Date` timestamps are modelled as `Nat`; every mutating store
  operation receives the current clock value `now : Nat` in place of the
  `new Date()` calls it performs (all `new Date()` calls inside one store
  operation happen in the same event-loop tick, hence receive one `now`).
* Generated identifiers (`generateId`) are passed in as explicit string
  parameters of the operations that create entities.
* `Array.prototype.find` followed by in-place mutation of the found
  element (the immer drafts in the source) is modelled by `updateFirst`,
  which rewrites the first element satisfying the predicate.
* `Array.prototype.splice(i, 1)` on a `findIndex` result is modelled by
  `extractFirst`, which removes the first element satisfying the
  predicate and returns it together with the remaining list;
  `splice(i, 0, x)` is modelled by `spliceIn`, which clamps an
  out-of-range index to the end of the list exactly as `splice` does for
  non-negative indices.
-/

/-- Rewrite the first element of the list satisfying `p` by `f`;
leave the list unchanged when no element satisfies `p`. -/
def updateFirst (p : α → Bool) (f : α → α) : List α → List α
  | [] => []
  | x :: xs => if p x then f x :: xs else x :: updateFirst p f xs

/-- Remove the first element satisfying `p`, returning it and the rest;
`none` when no element satisfies `p`.  This is `findIndex` followed by
`splice(index, 1)`. -/
def extractFirst (p : α → Bool) : List α → Option (α × List α)
  | [] => none
  | x :: xs =>
    if p x then some (x, xs)
    else (extractFirst p xs).map (fun r => (r.1, x :: r.2))

/-- Insert `a` at position `i`, clamping `i` to the length of the list:
this is `splice(i, 0, a)` for a non-negative index `i`. -/
def spliceIn (i : Nat) (a : α) (l : List α) : List α :=
  l.take i ++ a :: l.drop i

/-! ## Entity model (workspaceStore.ts, interfaces Card/Column/Board/Page/Workspace) -/

inductive Status where
  | todo
  | inProgress
  | done
deriving DecidableEq, Repr

structure Card where
  id : String
  title : String
  description : String
  columnId : String
  createdAt : Nat
  updatedAt : Nat
  tags : List String
  status : Status
  metadata : List (String × String)
deriving DecidableEq, Repr

structure Column where
  id : String
  title : String
  cards : List Card
  createdAt : Nat
  updatedAt : Nat
deriving DecidableEq, Repr

structure Board where
  columns : List Column
deriving DecidableEq, Repr

structure Page where
  id : String
  title : String
  icon : String
  board : Board
  createdAt : Nat
  updatedAt : Nat
deriving DecidableEq, Repr

structure Workspace where
  title : String
  pages : List Page
  activePageId : Option String
  createdAt : Nat
  updatedAt : Nat
deriving DecidableEq, Repr

/-- The zustand store's own state: the workspace plus the transient
card selection. -/
structure WorkspaceState where
  workspace : Workspace
  selectedCardId : Option String
deriving DecidableEq, Repr

/-- The starter card of `createDefaultWorkspace`. -/
def welcomeCard (columnId cardId : String) (t : Nat) : Card :=
  { id := cardId
    title := "Welcome to your workspace"
    description := "This is your first card. You can edit it, move it, or delete it."
    columnId := columnId
    createdAt := t
    updatedAt := t
    tags := ["welcome", "getting-started"]
    status := Status.todo
    metadata := [] }

/-- The starter column of `createDefaultWorkspace`. -/
def welcomeColumn (columnId cardId : String) (t : Nat) : Column :=
  { id := columnId
    title := "To Do"
    cards := [welcomeCard columnId cardId t]
    createdAt := t
    updatedAt := t }

/-- The starter page of `createDefaultWorkspace`. -/
def welcomePage (pageId columnId cardId : String) (t : Nat) : Page :=
  { id := pageId
    title := "Welcome"
    icon := "👋"
    board := { columns := [welcomeColumn columnId cardId t] }
    createdAt := t
    updatedAt := t }

/-- `createDefaultWorkspace` with the three generated ids and the
creation clock passed in as parameters. -/
def createDefaultWorkspace (pageId columnId cardId : String) (t : Nat) : Workspace :=
  { title := "My Workspace"
    pages := [welcomePage pageId columnId cardId t]
    activePageId := some pageId
    createdAt := t
    updatedAt := t }

/-- Initial store state: the default workspace, no selection. -/
def defaultState (pageId columnId cardId : String) (t : Nat) : WorkspaceState :=
  { workspace := createDefaultWorkspace pageId columnId cardId t
    selectedCardId := none }

/-! ## Store operations (workspaceStore.ts actions) -/

/-- `setWorkspaceTitle(title)`. -/
def setWorkspaceTitle (now : Nat) (title : String) (s : WorkspaceState) : WorkspaceState :=
  { s with workspace := { s.workspace with title := title, updatedAt := now } }

/-- `addPage(title, icon)`; the generated page id is the parameter `newId`. -/
def addPage (now : Nat) (newId title icon : String) (s : WorkspaceState) : WorkspaceState :=
  let newPage : Page :=
    { id := newId, title := title, icon := icon, board := { columns := [] }
      createdAt := now, updatedAt := now }
  { s with workspace :=
      { s.workspace with
          pages := s.workspace.pages ++ [newPage]
          activePageId := some newId
          updatedAt := now } }

/-- `removePage(pageId)`.  `pages[0]?.id || null` treats a first page whose
id is the empty string (a falsy value) the same as no page at all. -/
def removePage (now : Nat) (pageId : String) (s : WorkspaceState) : WorkspaceState :=
  let pages := s.workspace.pages.filter (fun page => !(page.id == pageId))
  let active :=
    if s.workspace.activePageId == some pageId then
      match pages.head? with
      | some p => if p.id == "" then none else some p.id
      | none => none
    else s.workspace.activePageId
  { s with workspace :=
      { s.workspace with pages := pages, activePageId := active, updatedAt := now } }

/-- `renamePage(pageId, title)`. -/
def renamePage (now : Nat) (pageId title : String) (s : WorkspaceState) : WorkspaceState :=
  match s.workspace.pages.find? (fun p => p.id == pageId) with
  | none => s
  | some page =>
    let newPage := { page with title := title, updatedAt := now }
    { s with workspace :=
        { s.workspace with
            pages := updateFirst (fun p => p.id == pageId) (fun _ => newPage) s.workspace.pages
            updatedAt := now } }

/-- `setActivePage(pageId)`: sets the pointer without validating existence. -/
def setActivePage (now : Nat) (pageId : String) (s : WorkspaceState) : WorkspaceState :=
  { s with workspace := { s.workspace with activePageId := some pageId, updatedAt := now } }

/-- `updatePageIcon(pageId, icon)`. -/
def updatePageIcon (now : Nat) (pageId icon : String) (s : WorkspaceState) : WorkspaceState :=
  match s.workspace.pages.find? (fun p => p.id == pageId) with
  | none => s
  | some page =>
    let newPage := { page with icon := icon, updatedAt := now }
    { s with workspace :=
        { s.workspace with
            pages := updateFirst (fun p => p.id == pageId) (fun _ => newPage) s.workspace.pages
            updatedAt := now } }

/-- `addColumn(pageId, title)`; the generated column id is `newId`. -/
def addColumn (now : Nat) (pageId newId title : String) (s : WorkspaceState) : WorkspaceState :=
  match s.workspace.pages.find? (fun p => p.id == pageId) with
  | none => s
  | some page =>
    let newColumn : Column :=
      { id := newId, title := title, cards := [], createdAt := now, updatedAt := now }
    let newPage :=
      { page with
          board := { columns := page.board.columns ++ [newColumn] }
          updatedAt := now }
    { s with workspace :=
        { s.workspace with
            pages := updateFirst (fun p => p.id == pageId) (fun _ => newPage) s.workspace.pages
            updatedAt := now } }

/-- `removeColumn(pageId, columnId)`: timestamps are refreshed whenever the
page is found, whether or not any column was removed. -/
def removeColumn (now : Nat) (pageId columnId : String) (s : WorkspaceState) : WorkspaceState :=
  match s.workspace.pages.find? (fun p => p.id == pageId) with
  | none => s
  | some page =>
    let newPage :=
      { page with
          board := { columns := page.board.columns.filter (fun col => !(col.id == columnId)) }
          updatedAt := now }
    { s with workspace :=
        { s.workspace with
            pages := updateFirst (fun p => p.id == pageId) (fun _ => newPage) s.workspace.pages
            updatedAt := now } }

/-- `renameColumn(pageId, columnId, title)`. -/
def renameColumn (now : Nat) (pageId columnId title : String) (s : WorkspaceState) : WorkspaceState :=
  match s.workspace.pages.find? (fun p => p.id == pageId) with
  | none => s
  | some page =>
    match page.board.columns.find? (fun col => col.id == columnId) with
    | none => s
    | some col =>
      let newCol := { col with title := title, updatedAt := now }
      let newPage :=
        { page with
            board := { columns := updateFirst (fun c => c.id == columnId) (fun _ => newCol) page.board.columns }
            updatedAt := now }
      { s with workspace :=
          { s.workspace with
              pages := updateFirst (fun p => p.id == pageId) (fun _ => newPage) s.workspace.pages
              updatedAt := now } }

/-- `moveColumn(pageId, columnId, targetIndex)`: splice-out at the found
index, splice-in at `targetIndex` (non-negative indices only, as in the
claims under study). -/
def moveColumn (now : Nat) (pageId columnId : String) (targetIndex : Nat) (s : WorkspaceState) : WorkspaceState :=
  match s.workspace.pages.find? (fun p => p.id == pageId) with
  | none => s
  | some page =>
    match extractFirst (fun col => col.id == columnId) page.board.columns with
    | none => s
    | some (column, rest) =>
      let newPage :=
        { page with
            board := { columns := spliceIn targetIndex column rest }
            updatedAt := now }
      { s with workspace :=
          { s.workspace with
              pages := updateFirst (fun p => p.id == pageId) (fun _ => newPage) s.workspace.pages
              updatedAt := now } }

/-- `addCard(pageId, columnId, title, description = "")`; the generated card
id is `newId`. -/
def addCard (now : Nat) (pageId columnId newId title description : String) (s : WorkspaceState) : WorkspaceState :=
  match s.workspace.pages.find? (fun p => p.id == pageId) with
  | none => s
  | some page =>
    match page.board.columns.find? (fun col => col.id == columnId) with
    | none => s
    | some col =>
      let newCard : Card :=
        { id := newId, title := title, description := description, columnId := columnId
          createdAt := now, updatedAt := now, tags := [], status := Status.todo, metadata := [] }
      let newCol := { col with cards := col.cards ++ [newCard], updatedAt := now }
      let newPage :=
        { page with
            board := { columns := updateFirst (fun c => c.id == columnId) (fun _ => newCol) page.board.columns }
            updatedAt := now }
      { s with workspace :=
          { s.workspace with
              pages := updateFirst (fun p => p.id == pageId) (fun _ => newPage) s.workspace.pages
              updatedAt := now } }

/-- `removeCard(pageId, columnId, cardId)`: timestamps are refreshed and a
matching selection is cleared whenever the page and column are found,
whether or not any card was removed. -/
def removeCard (now : Nat) (pageId columnId cardId : String) (s : WorkspaceState) : WorkspaceState :=
  match s.workspace.pages.find? (fun p => p.id == pageId) with
  | none => s
  | some page =>
    match page.board.columns.find? (fun col => col.id == columnId) with
    | none => s
    | some col =>
      let newCol := { col with cards := col.cards.filter (fun card => !(card.id == cardId)), updatedAt := now }
      let newPage :=
        { page with
            board := { columns := updateFirst (fun c => c.id == columnId) (fun _ => newCol) page.board.columns }
            updatedAt := now }
      { workspace :=
          { s.workspace with
              pages := updateFirst (fun p => p.id == pageId) (fun _ => newPage) s.workspace.pages
              updatedAt := now }
        selectedCardId := if s.selectedCardId == some cardId then none else s.selectedCardId }

/-- A `Partial<Card>` argument of `updateCard`: each field is optionally
present.  `Object.assign(card, updates, \x7b updatedAt: new Date() \x7d)`
applies every present field and then overwrites `updatedAt` with the clock. -/
structure CardUpdate where
  id : Option String := none
  title : Option String := none
  description : Option String := none
  columnId : Option String := none
  createdAt : Option Nat := none
  updatedAt : Option Nat := none
  tags : Option (List String) := none
  status : Option Status := none
  metadata : Option (List (String × String)) := none
deriving DecidableEq, Repr

/-- The effect of `Object.assign(card, updates, \x7b updatedAt: now \x7d)`. -/
def applyUpdate (now : Nat) (u : CardUpdate) (c : Card) : Card :=
  { id := u.id.getD c.id
    title := u.title.getD c.title
    description := u.description.getD c.description
    columnId := u.columnId.getD c.columnId
    createdAt := u.createdAt.getD c.createdAt
    updatedAt := now
    tags := u.tags.getD c.tags
    status := u.status.getD c.status
    metadata := u.metadata.getD c.metadata }

/-- `updateCard(pageId, columnId, cardId, updates)`. -/
def updateCard (now : Nat) (pageId columnId cardId : String) (u : CardUpdate) (s : WorkspaceState) : WorkspaceState :=
  match s.workspace.pages.find? (fun p => p.id == pageId) with
  | none => s
  | some page =>
    match page.board.columns.find? (fun col => col.id == columnId) with
    | none => s
    | some col =>
      match col.cards.find? (fun c => c.id == cardId) with
      | none => s
      | some _ =>
        let newCol :=
          { col with
              cards := updateFirst (fun c => c.id == cardId) (applyUpdate now u) col.cards
              updatedAt := now }
        let newPage :=
          { page with
              board := { columns := updateFirst (fun c => c.id == columnId) (fun _ => newCol) page.board.columns }
              updatedAt := now }
        { s with workspace :=
            { s.workspace with
                pages := updateFirst (fun p => p.id == pageId) (fun _ => newPage) s.workspace.pages
                updatedAt := now } }

/-- The `source` argument of `moveCard`. -/
structure MoveSource where
  pageId : String
  columnId : String
  cardId : String
deriving DecidableEq, Repr

/-- The `target` argument of `moveCard`; `index` is `target.index ?? end`. -/
structure MoveTarget where
  pageId : String
  columnId : String
  index : Option Nat := none
deriving DecidableEq, Repr

/-- First phase of `moveCard`: locate and splice the card out of the source
column, refreshing the source column and page timestamps on success. -/
def moveCardPhase1 (now : Nat) (src : MoveSource) (w : Workspace) : Option Card × Workspace :=
  match w.pages.find? (fun p => p.id == src.pageId) with
  | none => (none, w)
  | some page =>
    match page.board.columns.find? (fun col => col.id == src.columnId) with
    | none => (none, w)
    | some col =>
      match extractFirst (fun card => card.id == src.cardId) col.cards with
      | none => (none, w)
      | some (card, rest) =>
        let newCol := { col with cards := rest, updatedAt := now }
        let newPage :=
          { page with
              board := { columns := updateFirst (fun c => c.id == src.columnId) (fun _ => newCol) page.board.columns }
              updatedAt := now }
        (some card,
          { w with pages := updateFirst (fun p => p.id == src.pageId) (fun _ => newPage) w.pages })

/-- Second phase of `moveCard`: reassign `columnId`, refresh the card
timestamp and splice the card into the target column of the workspace as
left by the first phase.  When the target page or column is not found the
workspace is returned unchanged — and the extracted card is dropped. -/
def moveCardPhase2 (now : Nat) (tgt : MoveTarget) (card : Card) (w : Workspace) : Workspace :=
  match w.pages.find? (fun p => p.id == tgt.pageId) with
  | none => w
  | some page =>
    match page.board.columns.find? (fun col => col.id == tgt.columnId) with
    | none => w
    | some col =>
      let moved := { card with columnId := tgt.columnId, updatedAt := now }
      let insertIndex := tgt.index.getD col.cards.length
      let newCol := { col with cards := spliceIn insertIndex moved col.cards, updatedAt := now }
      let newPage :=
        { page with
            board := { columns := updateFirst (fun c => c.id == tgt.columnId) (fun _ => newCol) page.board.columns }
            updatedAt := now }
      { w with pages := updateFirst (fun p => p.id == tgt.pageId) (fun _ => newPage) w.pages }

/-- `moveCard(source, target)`: phase 1, then phase 2 when a card was
extracted; the workspace timestamp is refreshed unconditionally. -/
def moveCard (now : Nat) (src : MoveSource) (tgt : MoveTarget) (s : WorkspaceState) : WorkspaceState :=
  let r := moveCardPhase1 now src s.workspace
  let w2 :=
    match r.1 with
    | none => r.2
    | some card => moveCardPhase2 now tgt card r.2
  { s with workspace := { w2 with updatedAt := now } }

/-- `setSelectedCardId(cardId | null)`: touches no timestamp. -/
def setSelectedCardId (cardId : Option String) (s : WorkspaceState) : WorkspaceState :=
  { s with selectedCardId := cardId }

/-! ## Operation alphabet: one constructor per mutating store action,
with generated ids as explicit arguments. -/

inductive Op where
  | setWorkspaceTitle (title : String)
  | addPage (newId title icon : String)
  | removePage (pageId : String)
  | renamePage (pageId title : String)
  | setActivePage (pageId : String)
  | updatePageIcon (pageId icon : String)
  | addColumn (pageId newId title : String)
  | removeColumn (pageId columnId : String)
  | renameColumn (pageId columnId title : String)
  | moveColumn (pageId columnId : String) (targetIndex : Nat)
  | addCard (pageId columnId newId title description : String)
  | removeCard (pageId columnId cardId : String)
  | updateCard (pageId columnId cardId : String) (u : CardUpdate)
  | moveCard (src : MoveSource) (tgt : MoveTarget)
  | setSelectedCardId (cardId : Option String)
deriving DecidableEq, Repr

/-- Dispatch one store action at clock value `now`. -/
def applyOp (now : Nat) (op : Op) (s : WorkspaceState) : WorkspaceState :=
  match op with
  | Op.setWorkspaceTitle title => setWorkspaceTitle now title s
  | Op.addPage newId title icon => addPage now newId title icon s
  | Op.removePage pageId => removePage now pageId s
  | Op.renamePage pageId title => renamePage now pageId title s
  | Op.setActivePage pageId => setActivePage now pageId s
  | Op.updatePageIcon pageId icon => updatePageIcon now pageId icon s
  | Op.addColumn pageId newId title => addColumn now pageId newId title s
  | Op.removeColumn pageId columnId => removeColumn now pageId columnId s
  | Op.renameColumn pageId columnId title => renameColumn now pageId columnId title s
  | Op.moveColumn pageId columnId targetIndex => moveColumn now pageId columnId targetIndex s
  | Op.addCard pageId columnId newId title description => addCard now pageId columnId newId title description s
  | Op.removeCard pageId columnId cardId => removeCard now pageId columnId cardId s
  | Op.updateCard pageId columnId cardId u => updateCard now pageId columnId cardId u s
  | Op.moveCard src tgt => moveCard now src tgt s
  | Op.setSelectedCardId cardId => setSelectedCardId cardId s

/-- Apply a sequence of timestamped store actions in order. -/
def applyOps (ops : List (Nat × Op)) (s : WorkspaceState) : WorkspaceState :=
  ops.foldl (fun acc o => applyOp o.1 o.2 acc) s

/-! ## Reads and observations -/

/-- All card ids reachable from the workspace, in tree order. -/
def cardIds (w : Workspace) : List String :=
  (w.pages.flatMap (fun p => p.board.columns)).flatMap (fun col => col.cards.map Card.id)

/-- The first page with the given id (the lookup every action performs). -/
def findPage (w : Workspace) (pageId : String) : Option Page :=
  w.pages.find? (fun p => p.id == pageId)

/-- The first column with the given id inside the page with `pageId`. -/
def findColumnIn (w : Workspace) (pageId columnId : String) : Option Column :=
  (findPage w pageId).bind (fun p => p.board.columns.find? (fun col => col.id == columnId))

/-- The first card with the given id inside that column. -/
def findCardIn (w : Workspace) (pageId columnId cardId : String) : Option Card :=
  (findColumnIn w pageId columnId).bind (fun col => col.cards.find? (fun c => c.id == cardId))

/-- Is `activePageId` null or the id of a present page? -/
def validActive (w : Workspace) : Bool :=
  match w.activePageId with
  | none => true
  | some a => w.pages.any (fun p => p.id == a)

/-- Referential integrity of one column: every contained card's `columnId`
is the column's id. -/
def colOK (col : Column) : Bool :=
  col.cards.all (fun c => c.columnId == col.id)

/-- Referential integrity of a column list. -/
def colsOK (cols : List Column) : Bool :=
  cols.all colOK

/-- Referential integrity of the whole workspace. -/
def wsIntegrity (w : Workspace) : Bool :=
  w.pages.all (fun p => colsOK p.board.columns)

/-- Does the operation pass a `columnId` field through `updateCard`'s
partial update?  Every other operation is benign for referential
integrity. -/
def opBenign : Op → Bool
  | Op.updateCard _ _ _ u => u.columnId.isNone
  | _ => true

/-! ## Erasure of `updatedAt` timestamps, for statements of the form
"structurally unchanged except for timestamp refreshes". -/

/-- The card with its `updatedAt` erased. -/
def stripCard (c : Card) : Card :=
  { c with updatedAt := 0 }

/-- The column with every `updatedAt` below it erased. -/
def stripColumn (col : Column) : Column :=
  { col with updatedAt := 0, cards := col.cards.map stripCard }

/-- The page with every `updatedAt` below it erased. -/
def stripPage (p : Page) : Page :=
  { p with updatedAt := 0, board := { columns := p.board.columns.map stripColumn } }

/-- The workspace with every `updatedAt` erased. -/
def stripWorkspace (w : Workspace) : Workspace :=
  { w with updatedAt := 0, pages := w.pages.map stripPage }

/-! ## Export/import adapter (exportImportService.ts)

The import path receives an arbitrary parsed JSON value (`JSON.parse`
result).  JSON numbers are modelled as integers — only their truthiness
matters to the code under study.  Property access on `null` throws a
`TypeError` in JavaScript; the embedding threads such throws through
`Except`, matching the `try/catch` in `importWorkspace`. -/

inductive Json where
  | null
  | bool (b : Bool)
  | num (n : Int)
  | str (s : String)
  | arr (elems : List Json)
  | obj (fields : List (String × Json))

/-- JavaScript truthiness of a JSON value. -/
def truthy : Json → Bool
  | Json.null => false
  | Json.bool b => b
  | Json.num n => !(n == 0)
  | Json.str s => !(s == "")
  | Json.arr _ => true
  | Json.obj _ => true

/-- Truthiness of a possibly-`undefined` value. -/
def truthyOpt : Option Json → Bool
  | none => false
  | some v => truthy v

/-- Property access `v.k`: throws a `TypeError` on `null`, yields the field
on objects, and `undefined` (`none`) on every other value. -/
def getField : Json → String → Except String (Option Json)
  | Json.null, k => Except.error ("Cannot read properties of null (reading " ++ k ++ ")")
  | Json.obj fields, k => Except.ok ((fields.find? (fun f => f.1 == k)).map Prod.snd)
  | _, _ => Except.ok none

/-- Property access on a possibly-`undefined` base value. -/
def getFieldOpt : Option Json → String → Except String (Option Json)
  | none, k => Except.error ("Cannot read properties of undefined (reading " ++ k ++ ")")
  | some v, k => getField v k

/-- The per-page conjunct of `validateImportData`:
`page.id && page.title && page.board && Array.isArray(page.board.columns)`,
with JavaScript short-circuit order. -/
def validatePage (page : Json) : Except String Bool := do
  let idf ← getField page "id"
  if !truthyOpt idf then return false
  let titlef ← getField page "title"
  if !truthyOpt titlef then return false
  let boardf ← getField page "board"
  if !truthyOpt boardf then return false
  let colsf ← getFieldOpt boardf "columns"
  match colsf with
  | some (Json.arr _) => return true
  | _ => return false

/-- `Array.prototype.every` over the pages, short-circuiting on the first
failure (and propagating any thrown `TypeError`). -/
def validatePages : List Json → Except String Bool
  | [] => Except.ok true
  | p :: ps => do
    let b ← validatePage p
    if b then validatePages ps else return false

/-- `validateImportData(data)`. -/
def validateImportData (data : Json) : Except String Bool :=
  if !truthy data then Except.ok false
  else
    match data with
    | Json.arr _ | Json.obj _ => do
      let wsf ← getField data "workspace"
      if !truthyOpt wsf then return false
      let pagesf ← getFieldOpt wsf "pages"
      match pagesf with
      | some (Json.arr pages) => validatePages pages
      | _ => return false
    | _ => Except.ok false

/-- A conflict record of an `ImportResult`; the import path never creates
one. -/
structure ImportConflict where
  type : String
  id : String
  title : String
  action : String
deriving DecidableEq, Repr

/-- The `imported` counters of an `ImportResult`. -/
structure ImportCounts where
  pages : Nat
  columns : Nat
  cards : Nat
deriving DecidableEq, Repr

/-- The structured result of `importWorkspace`. -/
structure ImportResult where
  success : Bool
  message : String
  imported : ImportCounts
  conflicts : List ImportConflict
deriving DecidableEq, Repr

/-- Count the cards of one column as `processImport` walks it:
`column.cards.forEach` throws unless `cards` is an array. -/
def countCardsOf (column : Json) : Except String Nat := do
  let cardsf ← getField column "cards"
  match cardsf with
  | some (Json.arr cards) => return cards.length
  | some _ => Except.error "column.cards.forEach is not a function"
  | none => Except.error "Cannot read properties of undefined (reading forEach)"

/-- Accumulate column and card counts over one page's `board.columns`. -/
def countColumnsOf (page : Json) : Except String (Nat × Nat) := do
  let boardf ← getField page "board"
  let colsf ← getFieldOpt boardf "columns"
  match colsf with
  | some (Json.arr cols) =>
    cols.foldlM
      (fun acc column => do
        let n ← countCardsOf column
        return (acc.1 + 1, acc.2 + n))
      ((0, 0) : Nat × Nat)
  | some _ => Except.error "page.board.columns.forEach is not a function"
  | none => Except.error "Cannot read properties of undefined (reading forEach)"

/-- The success record `processImport` builds from its three counters. -/
def mkImportSuccess (counts : Nat × Nat × Nat) : ImportResult :=
  { success := true
    message :=
      "Successfully imported " ++ toString counts.1 ++ " pages, " ++
        toString counts.2.1 ++ " columns, and " ++ toString counts.2.2 ++ " cards"
    imported := { pages := counts.1, columns := counts.2.1, cards := counts.2.2 }
    conflicts := [] }

/-- `processImport(data, options)`: walks `data.workspace.pages` counting
pages, columns and cards, and reports success with the counts. -/
def processImport (data : Json) : Except String ImportResult := do
  let wsf ← getField data "workspace"
  let pagesf ← getFieldOpt wsf "pages"
  match pagesf with
  | some (Json.arr pages) =>
    (pages.foldlM
      (fun acc page =>
        (countColumnsOf page).map (fun cc => (acc.1 + 1, acc.2.1 + cc.1, acc.2.2 + cc.2)))
      ((0, 0, 0) : Nat × Nat × Nat)).map mkImportSuccess
  | some _ => Except.error "pages.forEach is not a function"
  | none => Except.error "Cannot read properties of undefined (reading forEach)"

/-- `importWorkspace` applied to an already-parsed JSON value: the shape
check failure is thrown inside the `try` block and caught by the same
`catch` that handles parse and read failures, which prefixes the message
with `Import failed: `. -/
def importWorkspace (data : Json) : ImportResult :=
  match (do
      let ok ← validateImportData data
      if !ok then Except.error "Invalid import data format"
      else processImport data : Except String ImportResult) with
  | Except.ok r => r
  | Except.error msg =>
    { success := false
      message := "Import failed: " ++ msg
      imported := { pages := 0, columns := 0, cards := 0 }
      conflicts := [] }

/-! ## Analytics summary (generateAnalytics) -/

/-- The analytics record attached to a JSON export; the completion rate is
an exact rational (the source divides two non-negative integers). -/
structure Analytics where
  totalCards : Nat
  completedCards : Nat
  completionRate : ℚ
  pagesCount : Nat
  columnsCount : Nat
deriving DecidableEq, Repr

/-- `generateAnalytics(pages)`, with the source's nested `reduce`
accumulations. -/
def generateAnalytics (pages : List Page) : Analytics :=
  let totalCards :=
    pages.foldl (fun acc page =>
      acc + page.board.columns.foldl (fun colAcc column => colAcc + column.cards.length) 0) 0
  let completedCards :=
    pages.foldl (fun acc page =>
      acc + page.board.columns.foldl (fun colAcc column =>
        colAcc + (column.cards.filter (fun card => card.status == Status.done)).length) 0) 0
  { totalCards := totalCards
    completedCards := completedCards
    completionRate := if totalCards > 0 then (completedCards : ℚ) / (totalCards : ℚ) else 0
    pagesCount := pages.length
    columnsCount := pages.foldl (fun acc page => acc + page.board.columns.length) 0 }

/-- All cards of a page list, flattened — the quantity the spec describes
as "the number of cards in all columns of all pages" is its length. -/
def allCards (pages : List Page) : List Card :=
  (pages.flatMap (fun p => p.board.columns)).flatMap Column.cards

/-! ## Lemmas about the list helpers -/

theorem updateFirst_cons_pos {p : α → Bool} {x : α} (f : α → α) (xs : List α)
    (h : p x = true) : updateFirst p f (x :: xs) = f x :: xs := by
  simp [updateFirst, h]

theorem updateFirst_cons_neg {p : α → Bool} {x : α} (f : α → α) (xs : List α)
    (h : p x = false) : updateFirst p f (x :: xs) = x :: updateFirst p f xs := by
  simp [updateFirst, h]

theorem extractFirst_cons_true {p : α → Bool} {x : α} (xs : List α)
    (h : p x = true) : extractFirst p (x :: xs) = some (x, xs) := by
  simp [extractFirst, h]

theorem extractFirst_cons_false {p : α → Bool} {x : α} (xs : List α)
    (h : p x = false) :
    extractFirst p (x :: xs) = (extractFirst p xs).map (fun r => (r.1, x :: r.2)) := by
  simp [extractFirst, h]

theorem mem_updateFirst {p : α → Bool} {f : α → α} {l : List α} {x : α}
    (h : x ∈ updateFirst p f l) : x ∈ l ∨ ∃ y, y ∈ l ∧ x = f y := by
  induction l with
  | nil => simp [updateFirst] at h
  | cons z zs ih =>
    cases hz : p z with
    | false =>
      rw [updateFirst_cons_neg _ _ hz] at h
      rcases List.mem_cons.mp h with h1 | h1
      · exact Or.inl (h1 ▸ List.mem_cons_self z zs)
      · rcases ih h1 with h2 | ⟨y, hy, hxy⟩
        · exact Or.inl (List.mem_cons_of_mem z h2)
        · exact Or.inr ⟨y, List.mem_cons_of_mem z hy, hxy⟩
    | true =>
      rw [updateFirst_cons_pos _ _ hz] at h
      rcases List.mem_cons.mp h with h1 | h1
      · exact Or.inr ⟨z, List.mem_cons_self z zs, h1⟩
      · exact Or.inl (List.mem_cons_of_mem z h1)

theorem find?_updateFirst_const {p : α → Bool} {l : List α} {a : α} (b : α)
    (hfind : l.find? p = some a) (hb : p b = true) :
    (updateFirst p (fun _ => b) l).find? p = some b := by
  induction l with
  | nil => simp at hfind
  | cons z zs ih =>
    cases hz : p z with
    | false =>
      rw [List.find?_cons_of_neg _ (by simp [hz])] at hfind
      rw [updateFirst_cons_neg _ _ hz, List.find?_cons_of_neg _ (by simp [hz])]
      exact ih hfind
    | true =>
      rw [updateFirst_cons_pos _ _ hz]
      exact List.find?_cons_of_pos _ hb

theorem updateFirst_updateFirst_const {p : α → Bool} {b : α} (g : α → α) (l : List α)
    (hb : p b = true) :
    updateFirst p g (updateFirst p (fun _ => b) l) = updateFirst p (fun _ => g b) l := by
  induction l with
  | nil => rfl
  | cons z zs ih =>
    cases hz : p z with
    | false =>
      rw [updateFirst_cons_neg _ _ hz, updateFirst_cons_neg _ _ hz,
        updateFirst_cons_neg _ _ hz, ih]
    | true =>
      rw [updateFirst_cons_pos _ _ hz, updateFirst_cons_pos _ _ hb,
        updateFirst_cons_pos _ _ hz]

theorem map_updateFirst_const {g : α → β} {p : α → Bool} {l : List α} {a : α} (b : α)
    (hfind : l.find? p = some a) (hg : g b = g a) :
    (updateFirst p (fun _ => b) l).map g = l.map g := by
  induction l with
  | nil => rfl
  | cons z zs ih =>
    cases hz : p z with
    | false =>
      rw [List.find?_cons_of_neg _ (by simp [hz])] at hfind
      rw [updateFirst_cons_neg _ _ hz, List.map_cons, List.map_cons, ih hfind]
    | true =>
      rw [List.find?_cons_of_pos _ hz] at hfind
      have hza : z = a := Option.some.inj hfind
      subst hza
      rw [updateFirst_cons_pos _ _ hz, List.map_cons, List.map_cons, hg]

theorem extractFirst_eq_some {p : α → Bool} {l : List α} {a : α} {r : List α}
    (h : extractFirst p l = some (a, r)) :
    ∃ l1 l2, l = l1 ++ a :: l2 ∧ r = l1 ++ l2 ∧ (∀ x ∈ l1, p x = false) ∧ p a = true := by
  induction l generalizing r with
  | nil => simp [extractFirst] at h
  | cons z zs ih =>
    cases hz : p z with
    | false =>
      rw [extractFirst_cons_false _ hz] at h
      cases hext : extractFirst p zs with
      | none => rw [hext] at h; exact Option.noConfusion h
      | some pr =>
        rw [hext] at h
        have heq : (pr.1, z :: pr.2) = (a, r) := Option.some.inj h
        have ha' : pr.1 = a := congrArg Prod.fst heq
        have hr : z :: pr.2 = r := congrArg Prod.snd heq
        have hext' : extractFirst p zs = some (a, pr.2) := by
          rw [hext, ← ha']
        rcases ih hext' with ⟨l1, l2, hl, hrr, hl1, hpa⟩
        refine ⟨z :: l1, l2, by simp [hl], by simp [← hr, hrr], ?_, hpa⟩
        intro x hx
        rcases List.mem_cons.mp hx with h1 | h1
        · rw [h1]; exact hz
        · exact hl1 x h1
    | true =>
      rw [extractFirst_cons_true _ hz] at h
      have heq : (z, zs) = (a, r) := Option.some.inj h
      have ha : z = a := congrArg Prod.fst heq
      have hr : zs = r := congrArg Prod.snd heq
      exact ⟨[], zs, by simp [ha], by simp [hr], by simp, ha ▸ hz⟩

theorem extractFirst_append_false {p : α → Bool} {l1 : List α} (l2 : List α)
    (h : ∀ x ∈ l1, p x = false) :
    extractFirst p (l1 ++ l2) = (extractFirst p l2).map (fun r => (r.1, l1 ++ r.2)) := by
  induction l1 with
  | nil =>
    simp only [List.nil_append]
    cases extractFirst p l2 with
    | none => rfl
    | some r => rfl
  | cons z zs ih =>
    have hz : p z = false := h z (List.mem_cons_self z zs)
    have ih' := ih (fun x hx => h x (List.mem_cons_of_mem z hx))
    rw [List.cons_append, extractFirst_cons_false _ hz, ih']
    cases extractFirst p l2 with
    | none => rfl
    | some r => rfl

theorem extractFirst_spliceIn {p : α → Bool} {l : List α} {a : α} (i : Nat)
    (ha : p a = true) (hl : ∀ x ∈ l, p x = false) :
    extractFirst p (spliceIn i a l) = some (a, l) := by
  have htake : ∀ x ∈ l.take i, p x = false := fun x hx => hl x (List.mem_of_mem_take hx)
  rw [spliceIn, extractFirst_append_false _ htake, extractFirst_cons_true _ ha]
  simp [List.take_append_drop]

theorem mem_spliceIn {l : List α} {a x : α} {i : Nat} (h : x ∈ spliceIn i a l) :
    x = a ∨ x ∈ l := by
  simp only [spliceIn, List.mem_append, List.mem_cons] at h
  rcases h with h | h | h
  · exact Or.inr (List.mem_of_mem_take h)
  · exact Or.inl h
  · exact Or.inr (List.mem_of_mem_drop h)

theorem spliceIn_perm (i : Nat) (a : α) (l : List α) : (spliceIn i a l).Perm (a :: l) := by
  calc (l.take i ++ a :: l.drop i).Perm (a :: (l.take i ++ l.drop i)) := List.perm_middle
    _ = a :: l := by rw [List.take_append_drop]

theorem spliceIn_of_length_le {i : Nat} {l : List α} (h : l.length ≤ i) (a : α) :
    spliceIn i a l = l ++ [a] := by
  simp [spliceIn, List.take_of_length_le h, List.drop_eq_nil_of_le h]

theorem eq_take_cons_drop {l : List α} {k : Nat} {a : α} (h : l[k]? = some a) :
    l = l.take k ++ a :: l.drop (k + 1) := by
  have hk : k < l.length := by
    by_contra hge
    rw [List.getElem?_eq_none (Nat.le_of_not_lt hge)] at h
    exact Option.noConfusion h
  have ha : l[k] = a := by
    have := List.getElem?_eq_getElem hk
    rw [this] at h
    exact Option.some.inj h
  conv_lhs => rw [← List.take_append_drop k l]
  rw [List.drop_eq_getElem_cons hk, ha]

theorem length_take_of_getElem {l : List α} {k : Nat} {a : α} (h : l[k]? = some a) :
    (l.take k).length = k := by
  have hk : k < l.length := by
    by_contra hge
    rw [List.getElem?_eq_none (Nat.le_of_not_lt hge)] at h
    exact Option.noConfusion h
  simp [List.length_take, Nat.le_of_lt hk]

theorem extractFirst_mem {p : α → Bool} {l r : List α} {a : α}
    (h : extractFirst p l = some (a, r)) : a ∈ l ∧ ∀ x ∈ r, x ∈ l := by
  rcases extractFirst_eq_some h with ⟨l1, l2, hl, hr, _, _⟩
  subst hl
  subst hr
  constructor
  · exact List.mem_append_right l1 (List.mem_cons_self a l2)
  · intro x hx
    rcases List.mem_append.mp hx with h1 | h1
    · exact List.mem_append_left _ h1
    · exact List.mem_append_right _ (List.mem_cons_of_mem a h1)

theorem all_updateFirst {p q : α → Bool} {f : α → α} {l : List α}
    (h : l.all q = true) (hf : ∀ y ∈ l, q y = true → q (f y) = true) :
    (updateFirst p f l).all q = true := by
  rw [List.all_eq_true] at h ⊢
  intro x hx
  rcases mem_updateFirst hx with h1 | ⟨y, hy, hxy⟩
  · exact h x h1
  · exact hxy ▸ hf y hy (h y hy)

theorem all_of_sublist_mem {q : α → Bool} {l l' : List α}
    (h : l.all q = true) (hsub : ∀ x ∈ l', x ∈ l) : l'.all q = true := by
  rw [List.all_eq_true] at h ⊢
  exact fun x hx => h x (hsub x hx)

/-! ## Referential-integrity preservation -/

theorem colOK_of_eq_parts {col col' : Column}
    (hid : col'.id = col.id) (hcards : col'.cards = col.cards)
    (h : colOK col = true) : colOK col' = true := by
  rw [colOK, hid, hcards]
  exact h

theorem colsOK_mem {cols : List Column} {col : Column}
    (h : colsOK cols = true) (hmem : col ∈ cols) : colOK col = true := by
  rw [colsOK, List.all_eq_true] at h
  exact h col hmem

theorem wsIntegrity_pages {w : Workspace} :
    wsIntegrity w = w.pages.all (fun p => colsOK p.board.columns) := rfl

theorem wsIntegrity_mem {w : Workspace} {page : Page}
    (h : wsIntegrity w = true) (hmem : page ∈ w.pages) :
    colsOK page.board.columns = true := by
  rw [wsIntegrity_pages, List.all_eq_true] at h
  exact h page hmem

/-- Integrity is a property of the pages list alone; replacing one page by
a page whose columns satisfy `colsOK` preserves it. -/
theorem pagesIntegrity_updateFirst {pages : List Page} {q : Page → Bool} {newPage : Page}
    (h : pages.all (fun p => colsOK p.board.columns) = true)
    (hnew : colsOK newPage.board.columns = true) :
    (updateFirst q (fun _ => newPage) pages).all (fun p => colsOK p.board.columns) = true :=
  all_updateFirst h (fun _ _ _ => hnew)

theorem moveCardPhase1_integrity (now : Nat) (src : MoveSource) (w : Workspace)
    (h : wsIntegrity w = true) : wsIntegrity (moveCardPhase1 now src w).2 = true := by
  rw [moveCardPhase1]
  split
  · exact h
  next page hfp =>
    split
    · exact h
    next col hfc =>
      split
      · exact h
      next card rest hex =>
        have hpage : page ∈ w.pages := List.mem_of_find?_eq_some hfp
        have hcols : colsOK page.board.columns = true := wsIntegrity_mem h hpage
        have hcol : colOK col = true :=
          colsOK_mem hcols (List.mem_of_find?_eq_some hfc)
        have hnewCol : colOK { col with cards := rest, updatedAt := now } = true := by
          refine colOK_of_eq_parts rfl rfl ?_
          rw [colOK] at hcol ⊢
          exact all_of_sublist_mem hcol (extractFirst_mem hex).2
        show (updateFirst (fun p => p.id == src.pageId) _ w.pages).all
          (fun p => colsOK p.board.columns) = true
        refine pagesIntegrity_updateFirst h ?_
        exact all_updateFirst hcols (fun _ _ _ => hnewCol)

theorem moveCardPhase2_integrity (now : Nat) (tgt : MoveTarget) (card : Card) (w : Workspace)
    (h : wsIntegrity w = true) : wsIntegrity (moveCardPhase2 now tgt card w) = true := by
  rw [moveCardPhase2]
  split
  · exact h
  next page hfp =>
    split
    · exact h
    next col hfc =>
      have hpage : page ∈ w.pages := List.mem_of_find?_eq_some hfp
      have hcols : colsOK page.board.columns = true := wsIntegrity_mem h hpage
      have hcol : colOK col = true :=
        colsOK_mem hcols (List.mem_of_find?_eq_some hfc)
      have hbeq := List.find?_some hfc
      have hcolid : col.id = tgt.columnId := eq_of_beq hbeq
      have hnewCol :
          colOK { col with
            cards := spliceIn (tgt.index.getD col.cards.length)
              { card with columnId := tgt.columnId, updatedAt := now } col.cards
            updatedAt := now } = true := by
        rw [colOK, List.all_eq_true]
        intro c hc
        rcases mem_spliceIn hc with h1 | h1
        · rw [h1]
          simp [hcolid]
        · rw [colOK, List.all_eq_true] at hcol
          exact hcol c h1
      show (updateFirst (fun p => p.id == tgt.pageId) _ w.pages).all
        (fun p => colsOK p.board.columns) = true
      refine pagesIntegrity_updateFirst h ?_
      exact all_updateFirst hcols (fun _ _ _ => hnewCol)

/-- Every store operation that does not route a `columnId` field through
`updateCard`'s partial update preserves referential integrity. -/
theorem applyOp_integrity (now : Nat) (op : Op) (s : WorkspaceState)
    (hben : opBenign op = true) (h : wsIntegrity s.workspace = true) :
    wsIntegrity (applyOp now op s).workspace = true := by
  cases op with
  | setWorkspaceTitle title =>
    exact h
  | addPage newId title icon =>
    show (_ ++ [_] : List Page).all _ = true
    simp only [List.all_append, Bool.and_eq_true]
    exact ⟨h, by simp [colsOK]⟩
  | removePage pageId =>
    show (s.workspace.pages.filter (fun page => !(page.id == pageId))).all
      (fun p => colsOK p.board.columns) = true
    rw [List.all_eq_true]
    intro p hp
    exact wsIntegrity_mem h (List.mem_of_mem_filter hp)
  | renamePage pageId title =>
    rw [applyOp, renamePage]
    split
    · exact h
    next page hfp =>
      show (updateFirst (fun p => p.id == pageId) _ s.workspace.pages).all
        (fun p => colsOK p.board.columns) = true
      have hcols : colsOK page.board.columns = true :=
        wsIntegrity_mem h (List.mem_of_find?_eq_some hfp)
      exact pagesIntegrity_updateFirst h hcols
  | setActivePage pageId =>
    exact h
  | updatePageIcon pageId icon =>
    rw [applyOp, updatePageIcon]
    split
    · exact h
    next page hfp =>
      show (updateFirst (fun p => p.id == pageId) _ s.workspace.pages).all
        (fun p => colsOK p.board.columns) = true
      have hcols : colsOK page.board.columns = true :=
        wsIntegrity_mem h (List.mem_of_find?_eq_some hfp)
      exact pagesIntegrity_updateFirst h hcols
  | addColumn pageId newId title =>
    rw [applyOp, addColumn]
    split
    · exact h
    next page hfp =>
      show (updateFirst (fun p => p.id == pageId) _ s.workspace.pages).all
        (fun p => colsOK p.board.columns) = true
      refine pagesIntegrity_updateFirst h ?_
      have hcols : colsOK page.board.columns = true :=
        wsIntegrity_mem h (List.mem_of_find?_eq_some hfp)
      show (page.board.columns ++ [_]).all colOK = true
      simp only [List.all_append, Bool.and_eq_true]
      exact ⟨hcols, by simp [colOK]⟩
  | removeColumn pageId columnId =>
    rw [applyOp, removeColumn]
    split
    · exact h
    next page hfp =>
      show (updateFirst (fun p => p.id == pageId) _ s.workspace.pages).all
        (fun p => colsOK p.board.columns) = true
      refine pagesIntegrity_updateFirst h ?_
      have hcols : colsOK page.board.columns = true :=
        wsIntegrity_mem h (List.mem_of_find?_eq_some hfp)
      exact all_of_sublist_mem hcols (fun x hx => List.mem_of_mem_filter hx)
  | renameColumn pageId columnId title =>
    rw [applyOp, renameColumn]
    split
    · exact h
    next page hfp =>
      split
      · exact h
      next col hfc =>
        show (updateFirst (fun p => p.id == pageId) _ s.workspace.pages).all
          (fun p => colsOK p.board.columns) = true
        refine pagesIntegrity_updateFirst h ?_
        have hcols : colsOK page.board.columns = true :=
          wsIntegrity_mem h (List.mem_of_find?_eq_some hfp)
        have hcol : colOK col = true :=
          colsOK_mem hcols (List.mem_of_find?_eq_some hfc)
        exact all_updateFirst hcols
          (fun _ _ _ => colOK_of_eq_parts rfl rfl hcol)
  | moveColumn pageId columnId targetIndex =>
    rw [applyOp, moveColumn]
    split
    · exact h
    next page hfp =>
      split
      · exact h
      next column rest hex =>
        show (updateFirst (fun p => p.id == pageId) _ s.workspace.pages).all
          (fun p => colsOK p.board.columns) = true
        refine pagesIntegrity_updateFirst h ?_
        have hcols : colsOK page.board.columns = true :=
          wsIntegrity_mem h (List.mem_of_find?_eq_some hfp)
        show (spliceIn targetIndex column rest).all colOK = true
        rw [List.all_eq_true]
        intro c hc
        rcases mem_spliceIn hc with h1 | h1
        · exact h1 ▸ colsOK_mem hcols (extractFirst_mem hex).1
        · exact colsOK_mem hcols ((extractFirst_mem hex).2 c h1)
  | addCard pageId columnId newId title description =>
    rw [applyOp, addCard]
    split
    · exact h
    next page hfp =>
      split
      · exact h
      next col hfc =>
        show (updateFirst (fun p => p.id == pageId) _ s.workspace.pages).all
          (fun p => colsOK p.board.columns) = true
        refine pagesIntegrity_updateFirst h ?_
        have hcols : colsOK page.board.columns = true :=
          wsIntegrity_mem h (List.mem_of_find?_eq_some hfp)
        have hcol : colOK col = true :=
          colsOK_mem hcols (List.mem_of_find?_eq_some hfc)
        have hbeq := List.find?_some hfc
        have hcolid : col.id = columnId := eq_of_beq hbeq
        refine all_updateFirst hcols (fun _ _ _ => ?_)
        show ((col.cards ++ [_]).all (fun c => c.columnId == col.id)) = true
        simp only [List.all_append, Bool.and_eq_true]
        exact ⟨hcol, by simp [hcolid]⟩
  | removeCard pageId columnId cardId =>
    rw [applyOp, removeCard]
    split
    · exact h
    next page hfp =>
      split
      · exact h
      next col hfc =>
        show (updateFirst (fun p => p.id == pageId) _ s.workspace.pages).all
          (fun p => colsOK p.board.columns) = true
        refine pagesIntegrity_updateFirst h ?_
        have hcols : colsOK page.board.columns = true :=
          wsIntegrity_mem h (List.mem_of_find?_eq_some hfp)
        have hcol : colOK col = true :=
          colsOK_mem hcols (List.mem_of_find?_eq_some hfc)
        refine all_updateFirst hcols (fun _ _ _ => ?_)
        refine colOK_of_eq_parts rfl rfl ?_
        rw [colOK] at hcol ⊢
        exact all_of_sublist_mem hcol (fun x hx => List.mem_of_mem_filter hx)
  | updateCard pageId columnId cardId u =>
    rw [applyOp, updateCard]
    have hu : u.columnId = none := by
      rw [opBenign] at hben
      exact Option.isNone_iff_eq_none.mp hben
    split
    · exact h
    next page hfp =>
      split
      · exact h
      next col hfc =>
        split
        · exact h
        next card hfk =>
          show (updateFirst (fun p => p.id == pageId) _ s.workspace.pages).all
            (fun p => colsOK p.board.columns) = true
          refine pagesIntegrity_updateFirst h ?_
          have hcols : colsOK page.board.columns = true :=
            wsIntegrity_mem h (List.mem_of_find?_eq_some hfp)
          have hcol : colOK col = true :=
            colsOK_mem hcols (List.mem_of_find?_eq_some hfc)
          refine all_updateFirst hcols (fun _ _ _ => ?_)
          refine colOK_of_eq_parts rfl rfl ?_
          rw [colOK] at hcol ⊢
          refine all_updateFirst hcol (fun y _ hy => ?_)
          simpa [applyUpdate, hu] using hy
  | moveCard src tgt =>
    show wsIntegrity (match (moveCardPhase1 now src s.workspace).1 with
      | none => (moveCardPhase1 now src s.workspace).2
      | some card => moveCardPhase2 now tgt card (moveCardPhase1 now src s.workspace).2) = true
    have h1 := moveCardPhase1_integrity now src s.workspace h
    cases (moveCardPhase1 now src s.workspace).1 with
    | none => exact h1
    | some card => exact moveCardPhase2_integrity now tgt card _ h1
  | setSelectedCardId cardId =>
    exact h

/-- Integrity of the default workspace. -/
theorem defaultState_integrity (pageId columnId cardId : String) (t : Nat) :
    wsIntegrity (defaultState pageId columnId cardId t).workspace = true := by
  simp [defaultState, createDefaultWorkspace, welcomePage, welcomeColumn, welcomeCard,
    wsIntegrity, colsOK, colOK]

theorem applyOps_integrity (ops : List (Nat × Op)) (s : WorkspaceState)
    (hben : ∀ o ∈ ops, opBenign o.2 = true) (h : wsIntegrity s.workspace = true) :
    wsIntegrity (applyOps ops s).workspace = true := by
  induction ops generalizing s with
  | nil => exact h
  | cons o os ih =>
    rw [applyOps, List.foldl_cons]
    exact ih (applyOp o.1 o.2 s) (fun x hx => hben x (List.mem_cons_of_mem o hx))
      (applyOp_integrity o.1 o.2 s (hben o (List.mem_cons_self o os)) h)

theorem find?_updateFirst {p : α → Bool} {l : List α} {a : α} (f : α → α)
    (hfind : l.find? p = some a) (hfa : p (f a) = true) :
    (updateFirst p f l).find? p = some (f a) := by
  induction l with
  | nil => simp at hfind
  | cons z zs ih =>
    cases hz : p z with
    | false =>
      rw [List.find?_cons_of_neg _ (by simp [hz])] at hfind
      rw [updateFirst_cons_neg _ _ hz, List.find?_cons_of_neg _ (by simp [hz])]
      exact ih hfind
    | true =>
      rw [List.find?_cons_of_pos _ hz] at hfind
      have hza : z = a := Option.some.inj hfind
      subst hza
      rw [updateFirst_cons_pos _ _ hz]
      exact List.find?_cons_of_pos _ hfa

/-! ## Claims -/

/-- C1: the spec claims `moveCard` is atomic — either the card is fully
relocated or the tree is unchanged, and the multiset of reachable card ids
is always preserved.  The code violates this: when the source lookup
succeeds but the target column does not exist, the card is spliced out of
the source column and never reinserted anywhere.  At the default workspace
(ids `p1`/`c1`/`k1`), moving `k1` to the nonexistent column `missing`
silently deletes the card: the reachable card ids go from `[k1]` to `[]`. -/
theorem moveCard_target_miss_loses_card :
    cardIds (defaultState "p1" "c1" "k1" 0).workspace = ["k1"] ∧
    cardIds (moveCard 1 ⟨"p1", "c1", "k1"⟩ ⟨"p1", "missing", none⟩
      (defaultState "p1" "c1" "k1" 0)).workspace = [] := by
  exact ⟨rfl, rfl⟩

/-- C2 (counterexample): referential integrity is not an invariant of
every store operation.  `updateCard` shallow-merges an arbitrary
`Partial<Card>` into the card, so an update carrying `columnId` rewrites
the foreign key without moving the card: one `updateCard` from the default
workspace leaves a card whose `columnId` differs from its column's id. -/
theorem updateCard_columnId_breaks_integrity :
    wsIntegrity (applyOps
      [(1, Op.updateCard "p1" "c1" "k1" { columnId := some "elsewhere" })]
      (defaultState "p1" "c1" "k1" 0)).workspace = false := by
  rfl

/-- C2 (amended): referential integrity holds in every state reachable
from the default workspace by store operations, provided no `updateCard`
call carries a `columnId` field in its partial update (every other
operation, including `moveCard`, preserves the invariant unconditionally). -/
theorem reachable_integrity (ops : List (Nat × Op)) (pid cid kid : String) (t : Nat)
    (hben : ∀ o ∈ ops, opBenign o.2 = true) :
    wsIntegrity (applyOps ops (defaultState pid cid kid t)).workspace = true :=
  applyOps_integrity ops _ hben (defaultState_integrity pid cid kid t)

/-- Witness for the amended C2: a concrete benign history (an `addColumn`
followed by a cross-column `moveCard`) keeps integrity. -/
theorem reachable_integrity_witness :
    (∀ o ∈ [((1 : Nat), Op.addColumn "p1" "c2" "Doing"),
        ((2 : Nat), Op.moveCard ⟨"p1", "c1", "k1"⟩ ⟨"p1", "c2", none⟩)],
      opBenign o.2 = true) ∧
    wsIntegrity (applyOps
      [((1 : Nat), Op.addColumn "p1" "c2" "Doing"),
        ((2 : Nat), Op.moveCard ⟨"p1", "c1", "k1"⟩ ⟨"p1", "c2", none⟩)]
      (defaultState "p1" "c1" "k1" 0)).workspace = true :=
  ⟨by decide, reachable_integrity _ "p1" "c1" "k1" 0 (by decide)⟩

/-- C8 (counterexample): for a parsed value that fails the shape check
(here the empty JSON object), `importWorkspace` reports failure with zero
counts, but its message is `Import failed: Invalid import data format` —
the shape-check error is thrown inside the `try` block and caught by the
same `catch` as parse failures, which prefixes it — not the bare
`Invalid import data format` the claim names. -/
theorem importWorkspace_message_counterexample :
    importWorkspace (Json.obj []) =
      { success := false
        message := "Import failed: Invalid import data format"
        imported := { pages := 0, columns := 0, cards := 0 }
        conflicts := [] } ∧
    "Import failed: Invalid import data format" ≠ "Invalid import data format" := by
  exact ⟨rfl, by decide⟩

/-- C8 (amended): for every parsed JSON value on which the shape check
returns false, `importWorkspace` returns a structured failure with
success = false, zero imported pages/columns/cards, no conflicts, and
message `Import failed: Invalid import data format` (the shape-check
message routed through the catch-all prefix); the workspace store is
never touched — the import path only computes statistics. -/
theorem importWorkspace_shape_failure (data : Json)
    (h : validateImportData data = Except.ok false) :
    importWorkspace data =
      { success := false
        message := "Import failed: Invalid import data format"
        imported := { pages := 0, columns := 0, cards := 0 }
        conflicts := [] } := by
  rw [importWorkspace]
  rw [show (do
      let ok ← validateImportData data
      if !ok then Except.error "Invalid import data format"
      else processImport data : Except String ImportResult) =
    Except.error "Invalid import data format" from by rw [h]; rfl]
  rfl

/-- Witness for the amended C8 at the empty JSON object. -/
theorem importWorkspace_shape_failure_witness :
    validateImportData (Json.obj []) = Except.ok false ∧
    importWorkspace (Json.obj []) =
      { success := false
        message := "Import failed: Invalid import data format"
        imported := { pages := 0, columns := 0, cards := 0 }
        conflicts := [] } :=
  ⟨rfl, importWorkspace_shape_failure (Json.obj []) rfl⟩

/-- C3 (counterexample): a `removePage` with an id absent from `pages` does
not leave the workspace state entirely unchanged — the code refreshes
`workspace.updatedAt` unconditionally.  From the default workspace created
at time 0, removing the absent id `missing` at time 1 changes the state. -/
theorem removePage_missing_not_noop :
    removePage 1 "missing" (defaultState "p1" "c1" "k1" 0) ≠
      defaultState "p1" "c1" "k1" 0 ∧
    (removePage 1 "missing" (defaultState "p1" "c1" "k1" 0)).workspace.updatedAt = 1 ∧
    (defaultState "p1" "c1" "k1" 0).workspace.updatedAt = 0 := by
  refine ⟨by decide, rfl, rfl⟩

/-- C3 (amended): not-found removals leave the pages/columns/cards
structure unchanged but still refresh `updatedAt` along the successfully
resolved path: `removePage` with an absent id (and no dangling active
pointer to it) changes only `workspace.updatedAt`; `removeColumn` with an
absent column id on an existing page additionally refreshes that page's
timestamp; `removeCard` with an absent card id on an existing page and
column (and no dangling selection of it) additionally refreshes that
column's timestamp.  When the parent lookup itself fails the state is
returned untouched. -/
theorem remove_missing_only_touches_timestamps :
    (∀ (now : Nat) (pid : String) (s : WorkspaceState),
      s.workspace.pages.all (fun page => !(page.id == pid)) = true →
      s.workspace.activePageId ≠ some pid →
      removePage now pid s =
        { s with workspace := { s.workspace with updatedAt := now } }) ∧
    (∀ (now : Nat) (pid cid : String) (s : WorkspaceState) (page : Page),
      s.workspace.pages.find? (fun p => p.id == pid) = some page →
      page.board.columns.all (fun col => !(col.id == cid)) = true →
      removeColumn now pid cid s =
        { s with workspace := { s.workspace with
            pages := updateFirst (fun p => p.id == pid)
              (fun _ => { page with updatedAt := now }) s.workspace.pages
            updatedAt := now } }) ∧
    (∀ (now : Nat) (pid cid kid : String) (s : WorkspaceState) (page : Page) (col : Column),
      s.workspace.pages.find? (fun p => p.id == pid) = some page →
      page.board.columns.find? (fun c => c.id == cid) = some col →
      col.cards.all (fun card => !(card.id == kid)) = true →
      s.selectedCardId ≠ some kid →
      removeCard now pid cid kid s =
        { s with workspace := { s.workspace with
            pages := updateFirst (fun p => p.id == pid)
              (fun _ => { page with board := { columns := updateFirst (fun c => c.id == cid) (fun _ => { col with updatedAt := now }) page.board.columns }, updatedAt := now }) s.workspace.pages
            updatedAt := now } }) := by
  refine ⟨?_, ?_, ?_⟩
  · intro now pid s hall hact
    have hfilter : s.workspace.pages.filter (fun page => !(page.id == pid)) =
        s.workspace.pages :=
      List.filter_eq_self.mpr (fun a ha => (List.all_eq_true.mp hall) a ha)
    have hcond : (s.workspace.activePageId == some pid) = false := by
      rw [beq_eq_false_iff_ne]
      exact hact
    rw [removePage]
    simp only [hfilter, hcond, Bool.false_eq_true, if_false]
  · intro now pid cid s page hfp hall
    have hfilter : page.board.columns.filter (fun col => !(col.id == cid)) =
        page.board.columns :=
      List.filter_eq_self.mpr (fun a ha => (List.all_eq_true.mp hall) a ha)
    rw [removeColumn, hfp]
    simp only [hfilter]
  · intro now pid cid kid s page col hfp hfc hall hsel
    have hfilter : col.cards.filter (fun card => !(card.id == kid)) = col.cards :=
      List.filter_eq_self.mpr (fun a ha => (List.all_eq_true.mp hall) a ha)
    have hcond : (s.selectedCardId == some kid) = false := by
      rw [beq_eq_false_iff_ne]
      exact hsel
    rw [removeCard, hfp]
    dsimp only
    rw [hfc]
    simp only [hfilter, hcond, Bool.false_eq_true, if_false]

/-- Witness for the amended C3: the three parts applied at the default
workspace with absent ids `nope`. -/
theorem remove_missing_only_touches_timestamps_witness :
    ((defaultState "p1" "c1" "k1" 0).workspace.pages.all
        (fun page => !(page.id == "nope")) = true ∧
      removePage 1 "nope" (defaultState "p1" "c1" "k1" 0) =
        { defaultState "p1" "c1" "k1" 0 with workspace :=
            { (defaultState "p1" "c1" "k1" 0).workspace with updatedAt := 1 } }) ∧
    ((defaultState "p1" "c1" "k1" 0).workspace.pages.find? (fun p => p.id == "p1") =
        some (welcomePage "p1" "c1" "k1" 0) ∧
      removeColumn 1 "p1" "nope" (defaultState "p1" "c1" "k1" 0) =
        { defaultState "p1" "c1" "k1" 0 with workspace :=
            { (defaultState "p1" "c1" "k1" 0).workspace with
                pages := updateFirst (fun p => p.id == "p1")
                  (fun _ => { welcomePage "p1" "c1" "k1" 0 with updatedAt := 1 })
                  (defaultState "p1" "c1" "k1" 0).workspace.pages
                updatedAt := 1 } }) ∧
    ((welcomePage "p1" "c1" "k1" 0).board.columns.find? (fun c => c.id == "c1") =
        some (welcomeColumn "c1" "k1" 0) ∧
      removeCard 1 "p1" "c1" "nope" (defaultState "p1" "c1" "k1" 0) =
        { defaultState "p1" "c1" "k1" 0 with workspace :=
            { (defaultState "p1" "c1" "k1" 0).workspace with
                pages := updateFirst (fun p => p.id == "p1")
                  (fun _ => { welcomePage "p1" "c1" "k1" 0 with board := { columns := updateFirst (fun c => c.id == "c1") (fun _ => { welcomeColumn "c1" "k1" 0 with updatedAt := 1 }) (welcomePage "p1" "c1" "k1" 0).board.columns }, updatedAt := 1 })
                  (defaultState "p1" "c1" "k1" 0).workspace.pages
                updatedAt := 1 } }) :=
  ⟨⟨by decide,
      remove_missing_only_touches_timestamps.1 1 "nope" (defaultState "p1" "c1" "k1" 0)
        (by decide) (by decide)⟩,
    ⟨by decide,
      remove_missing_only_touches_timestamps.2.1 1 "p1" "nope"
        (defaultState "p1" "c1" "k1" 0) (welcomePage "p1" "c1" "k1" 0)
        (by decide) (by decide)⟩,
    ⟨by decide,
      remove_missing_only_touches_timestamps.2.2 1 "p1" "c1" "nope"
        (defaultState "p1" "c1" "k1" 0) (welcomePage "p1" "c1" "k1" 0)
        (welcomeColumn "c1" "k1" 0) (by decide) (by decide) (by decide) (by decide)⟩⟩

/-- A workspace whose first page carries the empty string as id — a falsy
value in JavaScript — used to exercise `pages[0]?.id || null`. -/
def blankIdState : WorkspaceState :=
  { workspace :=
      { title := "w"
        pages := [
          { id := "", title := "A", icon := "", board := { columns := [] }
            createdAt := 0, updatedAt := 0 },
          { id := "p2", title := "B", icon := "", board := { columns := [] }
            createdAt := 0, updatedAt := 0 } ]
        activePageId := some "p2"
        createdAt := 0
        updatedAt := 0 }
    selectedCardId := none }

/-- C4 (counterexample): removing the active page does not always set
`activePageId` to the id of the first remaining page: `pages[0]?.id || null`
treats a falsy id as absent, so when the first remaining page's id is the
empty string, `activePageId` becomes null even though a page remains. -/
theorem removePage_active_counterexample :
    blankIdState.workspace.activePageId = some "p2" ∧
    blankIdState.workspace.pages.any (fun p => p.id == "p2") = true ∧
    (removePage 1 "p2" blankIdState).workspace.pages.map Page.id = [""] ∧
    (removePage 1 "p2" blankIdState).workspace.activePageId = none := by
  decide

/-- C4 (amended): from a workspace whose `activePageId` names a present
page, `removePage(activePageId)` reassigns `activePageId` to the first
remaining page's id — or to null when no page remains or when that id is
the empty string, which `pages[0]?.id || null` conflates with absence —
and after any `removePage` call from such a state, `activePageId` is null
or the id of a page present in `pages`. -/
theorem removePage_active_validity (now : Nat) (pid x : String) (s : WorkspaceState)
    (hact : s.workspace.activePageId = some pid)
    (hmem : s.workspace.pages.any (fun p => p.id == pid) = true) :
    ((removePage now pid s).workspace.activePageId =
      match (removePage now pid s).workspace.pages.head? with
      | some p => if p.id == "" then none else some p.id
      | none => none) ∧
    validActive (removePage now x s).workspace = true := by
  constructor
  · have hcond : (s.workspace.activePageId == some pid) = true := by
      rw [hact]
      exact beq_self_eq_true (some pid)
    rw [removePage]
    dsimp only
    rw [hcond]
    rfl
  · cases hc : (s.workspace.activePageId == some x) with
    | false =>
      rw [removePage]
      dsimp only
      rw [hc]
      simp only [Bool.false_eq_true, if_false]
      rcases List.any_eq_true.mp hmem with ⟨p, hp, hpid⟩
      have hpidx : (p.id == x) = false := by
        rw [beq_eq_false_iff_ne]
        intro hpx
        have hne : s.workspace.activePageId ≠ some x := by
          rw [← beq_eq_false_iff_ne]
          exact hc
        apply hne
        rw [hact, ← hpx, eq_of_beq hpid]
      show validActive { s.workspace with
        pages := s.workspace.pages.filter (fun page => !(page.id == x))
        activePageId := s.workspace.activePageId
        updatedAt := now } = true
      rw [validActive]
      dsimp only
      rw [hact]
      rw [List.any_eq_true]
      refine ⟨p, ?_, hpid⟩
      rw [List.mem_filter]
      exact ⟨hp, by rw [hpidx]; rfl⟩
    | true =>
      rw [removePage]
      dsimp only
      rw [hc]
      rw [if_pos rfl]
      cases hh : (s.workspace.pages.filter (fun page => !(page.id == x))).head? with
      | none =>
        rfl
      | some p =>
        dsimp only
        cases hpe : (p.id == "") with
        | true =>
          rfl
        | false =>
          simp only [Bool.false_eq_true, if_false]
          rw [validActive]
          dsimp only
          rw [List.any_eq_true]
          refine ⟨p, ?_, beq_self_eq_true p.id⟩
          exact List.mem_of_mem_head? (by rw [hh]; exact rfl)

/-- Witness for the amended C4: removing the only (active) page of the
default workspace leaves no pages and a null active pointer. -/
theorem removePage_active_validity_witness :
    ((defaultState "p1" "c1" "k1" 0).workspace.activePageId = some "p1" ∧
      (defaultState "p1" "c1" "k1" 0).workspace.pages.any (fun p => p.id == "p1") = true) ∧
    (((removePage 1 "p1" (defaultState "p1" "c1" "k1" 0)).workspace.activePageId =
        match (removePage 1 "p1" (defaultState "p1" "c1" "k1" 0)).workspace.pages.head? with
        | some p => if p.id == "" then none else some p.id
        | none => none) ∧
      validActive (removePage 1 "p1" (defaultState "p1" "c1" "k1" 0)).workspace = true) :=
  ⟨⟨rfl, by decide⟩,
    removePage_active_validity 1 "p1" "p1" (defaultState "p1" "c1" "k1" 0) rfl (by decide)⟩

/-- C10: `moveColumn` on an existing page and column only permutes the
page's column sequence: the new sequence is the splice-in of the extracted
column into the remainder, a permutation of the original (no column
added, removed or duplicated), and a `targetIndex` at or beyond the length
of the remainder places the moved column last. -/
theorem moveColumn_permutes (now : Nat) (pid cid : String) (t : Nat) (s : WorkspaceState)
    (page : Page) (ccol : Column) (rest : List Column)
    (hfp : s.workspace.pages.find? (fun p => p.id == pid) = some page)
    (hex : extractFirst (fun c => c.id == cid) page.board.columns = some (ccol, rest)) :
    ((moveColumn now pid cid t s).workspace.pages.find? (fun p => p.id == pid)).map
        (fun p => p.board.columns) = some (spliceIn t ccol rest) ∧
    (spliceIn t ccol rest).Perm page.board.columns ∧
    (rest.length ≤ t → spliceIn t ccol rest = rest ++ [ccol]) := by
  have hpid := List.find?_some hfp
  refine ⟨?_, ?_, fun hle => spliceIn_of_length_le hle ccol⟩
  · rw [moveColumn, hfp]
    dsimp only
    rw [hex]
    dsimp only
    have key : (updateFirst (fun p => p.id == pid)
          (fun _ => ({ page with board := { columns := spliceIn t ccol rest }, updatedAt := now } : Page))
          s.workspace.pages).find? (fun p => p.id == pid) =
        some { page with board := { columns := spliceIn t ccol rest }, updatedAt := now } :=
      find?_updateFirst_const _ hfp hpid
    rw [key]
    rfl
  · rcases extractFirst_eq_some hex with ⟨l1, l2, hl, hr, _, _⟩
    subst hr
    rw [hl]
    exact (spliceIn_perm t ccol (l1 ++ l2)).trans List.perm_middle.symm

/-- Witness for C10 at the default workspace, with a target index beyond
the end of the remainder. -/
theorem moveColumn_permutes_witness :
    ((defaultState "p1" "c1" "k1" 0).workspace.pages.find? (fun p => p.id == "p1") =
        some (welcomePage "p1" "c1" "k1" 0) ∧
      extractFirst (fun c => c.id == "c1")
          (welcomePage "p1" "c1" "k1" 0).board.columns =
        some (welcomeColumn "c1" "k1" 0, [])) ∧
    (((moveColumn 1 "p1" "c1" 3 (defaultState "p1" "c1" "k1" 0)).workspace.pages.find?
          (fun p => p.id == "p1")).map (fun p => p.board.columns) =
        some (spliceIn 3 (welcomeColumn "c1" "k1" 0) []) ∧
      (spliceIn 3 (welcomeColumn "c1" "k1" 0) []).Perm
        (welcomePage "p1" "c1" "k1" 0).board.columns ∧
      (List.length ([] : List Column) ≤ 3 →
        spliceIn 3 (welcomeColumn "c1" "k1" 0) [] = [] ++ [welcomeColumn "c1" "k1" 0])) :=
  ⟨⟨by decide, by decide⟩,
    moveColumn_permutes 1 "p1" "c1" 3 (defaultState "p1" "c1" "k1" 0)
      (welcomePage "p1" "c1" "k1" 0) (welcomeColumn "c1" "k1" 0) []
      (by decide) (by decide)⟩

/-- C5: under the data model's id-uniqueness invariant, two successive
`moveColumn` calls for the same column compose: moving column `cid` to
index `i` and then to index `j` yields the same column sequence as the
single direct move to `j`, with target indices interpreted against the
sequence with the moved column removed. -/
theorem moveColumn_compose (now1 now2 now3 : Nat) (pid cid : String) (i j : Nat)
    (s : WorkspaceState) (page : Page) (ccol : Column) (rest : List Column)
    (hfp : s.workspace.pages.find? (fun p => p.id == pid) = some page)
    (hex : extractFirst (fun c => c.id == cid) page.board.columns = some (ccol, rest))
    (hnodup : (page.board.columns.map Column.id).Nodup) :
    ((moveColumn now2 pid cid j (moveColumn now1 pid cid i s)).workspace.pages.find?
        (fun p => p.id == pid)).map (fun p => p.board.columns) =
      ((moveColumn now3 pid cid j s).workspace.pages.find?
        (fun p => p.id == pid)).map (fun p => p.board.columns) := by
  have hpid := List.find?_some hfp
  rcases extractFirst_eq_some hex with ⟨l1, l2, hl, hr, hall1, hpc⟩
  have hcid : ccol.id = cid := eq_of_beq hpc
  have hrest : ∀ x ∈ rest, (x.id == cid) = false := by
    have hnd := hnodup
    rw [hl, List.map_append, List.map_cons] at hnd
    rcases List.nodup_append.mp hnd with ⟨_, hndB, hdisj⟩
    have hnotin1 : ccol.id ∉ l1.map Column.id := by
      intro hmem
      exact (hdisj hmem) (List.mem_cons_self _ _)
    have hnotin2 : ccol.id ∉ l2.map Column.id :=
      (List.nodup_cons.mp hndB).1
    intro x hx
    rw [beq_eq_false_iff_ne]
    intro hxid
    rw [hr] at hx
    rcases List.mem_append.mp hx with h1 | h1
    · have hmem : x.id ∈ l1.map Column.id := List.mem_map_of_mem Column.id h1
      rw [hxid, ← hcid] at hmem
      exact hnotin1 hmem
    · have hmem : x.id ∈ l2.map Column.id := List.mem_map_of_mem Column.id h1
      rw [hxid, ← hcid] at hmem
      exact hnotin2 hmem
  have hex2 : extractFirst (fun c => c.id == cid) (spliceIn i ccol rest) =
      some (ccol, rest) :=
    extractFirst_spliceIn i hpc hrest
  have step1 : moveColumn now1 pid cid i s =
      { s with workspace := { s.workspace with
          pages := updateFirst (fun p => p.id == pid)
            (fun _ => ({ page with board := { columns := spliceIn i ccol rest }, updatedAt := now1 } : Page))
            s.workspace.pages
          updatedAt := now1 } } := by
    rw [moveColumn, hfp]
    dsimp only
    rw [hex]
  have hf1 : (updateFirst (fun p => p.id == pid)
        (fun _ => ({ page with board := { columns := spliceIn i ccol rest }, updatedAt := now1 } : Page))
        s.workspace.pages).find? (fun p => p.id == pid) =
      some { page with board := { columns := spliceIn i ccol rest }, updatedAt := now1 } :=
    find?_updateFirst_const _ hfp hpid
  rw [step1, moveColumn]
  dsimp only
  rw [hf1]
  dsimp only
  rw [hex2]
  dsimp only
  have hf2 : (updateFirst (fun p => p.id == pid)
        (fun _ => ({ page with board := { columns := spliceIn j ccol rest }, updatedAt := now2 } : Page))
        (updateFirst (fun p => p.id == pid)
          (fun _ => ({ page with board := { columns := spliceIn i ccol rest }, updatedAt := now1 } : Page))
          s.workspace.pages)).find? (fun p => p.id == pid) =
      some { page with board := { columns := spliceIn j ccol rest }, updatedAt := now2 } :=
    find?_updateFirst_const _ hf1 hpid
  rw [hf2]
  rw [moveColumn, hfp]
  dsimp only
  rw [hex]
  dsimp only
  have hf3 : (updateFirst (fun p => p.id == pid)
        (fun _ => ({ page with board := { columns := spliceIn j ccol rest }, updatedAt := now3 } : Page))
        s.workspace.pages).find? (fun p => p.id == pid) =
      some { page with board := { columns := spliceIn j ccol rest }, updatedAt := now3 } :=
    find?_updateFirst_const _ hfp hpid
  rw [hf3]
  rfl

/-- Sample columns and page with three distinct column ids, for concrete
instantiations of the column-reordering theorems. -/
def sampleColA : Column := { id := "a", title := "A", cards := [], createdAt := 0, updatedAt := 0 }

def sampleColB : Column := { id := "b", title := "B", cards := [], createdAt := 0, updatedAt := 0 }

def sampleColC : Column := { id := "c", title := "C", cards := [], createdAt := 0, updatedAt := 0 }

def samplePage : Page :=
  { id := "p", title := "P", icon := ""
    board := { columns := [sampleColA, sampleColB, sampleColC] }
    createdAt := 0, updatedAt := 0 }

def sampleState : WorkspaceState :=
  { workspace :=
      { title := "w", pages := [samplePage], activePageId := none
        createdAt := 0, updatedAt := 0 }
    selectedCardId := none }

/-- Witness for C5: on a page with columns `a`, `b`, `c`, moving `a` to
index 2 and then to index 1 equals the single move of `a` to index 1. -/
theorem moveColumn_compose_witness :
    (sampleState.workspace.pages.find? (fun p => p.id == "p") = some samplePage ∧
      extractFirst (fun c => c.id == "a") samplePage.board.columns =
        some (sampleColA, [sampleColB, sampleColC]) ∧
      (samplePage.board.columns.map Column.id).Nodup) ∧
    ((moveColumn 5 "p" "a" 1 (moveColumn 4 "p" "a" 2 sampleState)).workspace.pages.find?
        (fun p => p.id == "p")).map (fun p => p.board.columns) =
      ((moveColumn 6 "p" "a" 1 sampleState).workspace.pages.find?
        (fun p => p.id == "p")).map (fun p => p.board.columns) :=
  ⟨⟨by decide, by decide, by decide⟩,
    moveColumn_compose 4 5 6 "p" "a" 2 1 sampleState samplePage sampleColA
      [sampleColB, sampleColC] (by decide) (by decide) (by decide)⟩

/-- C6: the identity move — `moveCard` whose target is the card's current
page, column, and index — leaves the tree structurally unchanged except
for `updatedAt` refreshes: the workspace with all `updatedAt` fields
erased is the same before and after, and the selection is untouched.
Stated for a card at index `k` of its column that is the first card with
its id and whose `columnId` foreign key is intact. -/
theorem moveCard_identity (now : Nat) (p c kid : String) (k : Nat) (s : WorkspaceState)
    (page : Page) (col : Column) (card : Card)
    (hfp : s.workspace.pages.find? (fun pg => pg.id == p) = some page)
    (hfc : page.board.columns.find? (fun c0 => c0.id == c) = some col)
    (hpre : ∀ x ∈ col.cards.take k, (x.id == kid) = false)
    (hget : col.cards[k]? = some card)
    (hid : (card.id == kid) = true)
    (hcolid : card.columnId = c) :
    stripWorkspace (moveCard now ⟨p, c, kid⟩ ⟨p, c, some k⟩ s).workspace =
      stripWorkspace s.workspace ∧
    (moveCard now ⟨p, c, kid⟩ ⟨p, c, some k⟩ s).selectedCardId = s.selectedCardId := by
  have hpid := List.find?_some hfp
  have hcid := List.find?_some hfc
  have hsplit : col.cards = col.cards.take k ++ card :: col.cards.drop (k + 1) :=
    eq_take_cons_drop hget
  have hlen : (col.cards.take k).length = k := length_take_of_getElem hget
  have hex : extractFirst (fun x => x.id == kid) col.cards =
      some (card, col.cards.take k ++ col.cards.drop (k + 1)) := by
    nth_rewrite 1 [hsplit]
    rw [extractFirst_append_false _ hpre]
    have hc2 : extractFirst (fun x => x.id == kid) (card :: col.cards.drop (k + 1)) =
        some (card, col.cards.drop (k + 1)) :=
      extractFirst_cons_true _ hid
    rw [hc2]
    rfl
  have hsc : stripColumn ({ col with cards := spliceIn k { card with columnId := c, updatedAt := now } (col.cards.take k ++ col.cards.drop (k + 1)), updatedAt := now } : Column) = stripColumn col := by
    rw [stripColumn, stripColumn]
    have hmapeq : (spliceIn k { card with columnId := c, updatedAt := now } (col.cards.take k ++ col.cards.drop (k + 1))).map stripCard =
        col.cards.map stripCard := by
      rw [spliceIn]
      rw [List.take_left' hlen, List.drop_left' hlen]
      nth_rewrite 3 [hsplit]
      rw [List.map_append, List.map_append, List.map_cons, List.map_cons]
      have hmv : stripCard { card with columnId := c, updatedAt := now } = stripCard card := by
        rw [stripCard, stripCard, hcolid]
      rw [hmv]
    rw [hmapeq]
  have hsp : stripPage ({ page with board := { columns := updateFirst (fun c0 => c0.id == c) (fun _ => ({ col with cards := spliceIn k { card with columnId := c, updatedAt := now } (col.cards.take k ++ col.cards.drop (k + 1)), updatedAt := now } : Column)) (updateFirst (fun c0 => c0.id == c) (fun _ => ({ col with cards := col.cards.take k ++ col.cards.drop (k + 1), updatedAt := now } : Column)) page.board.columns) }, updatedAt := now } : Page) = stripPage page := by
    have hcollapseC : updateFirst (fun c0 => c0.id == c) (fun _ => ({ col with cards := spliceIn k { card with columnId := c, updatedAt := now } (col.cards.take k ++ col.cards.drop (k + 1)), updatedAt := now } : Column)) (updateFirst (fun c0 => c0.id == c) (fun _ => ({ col with cards := col.cards.take k ++ col.cards.drop (k + 1), updatedAt := now } : Column)) page.board.columns) =
        updateFirst (fun c0 => c0.id == c) (fun _ => ({ col with cards := spliceIn k { card with columnId := c, updatedAt := now } (col.cards.take k ++ col.cards.drop (k + 1)), updatedAt := now } : Column)) page.board.columns :=
      updateFirst_updateFirst_const _ page.board.columns hcid
    rw [stripPage, stripPage]
    have hmapeq : (updateFirst (fun c0 => c0.id == c) (fun _ => ({ col with cards := spliceIn k { card with columnId := c, updatedAt := now } (col.cards.take k ++ col.cards.drop (k + 1)), updatedAt := now } : Column)) (updateFirst (fun c0 => c0.id == c) (fun _ => ({ col with cards := col.cards.take k ++ col.cards.drop (k + 1), updatedAt := now } : Column)) page.board.columns)).map stripColumn = page.board.columns.map stripColumn := by
      rw [hcollapseC]
      exact map_updateFirst_const _ hfc hsc
    rw [hmapeq]
  constructor
  · rw [moveCard]
    dsimp only
    rw [moveCardPhase1]
    dsimp only
    rw [hfp]
    dsimp only
    rw [hfc]
    dsimp only
    rw [hex]
    dsimp only
    rw [moveCardPhase2]
    dsimp only [Option.getD]
    have hf1 : (updateFirst (fun pg => pg.id == p) (fun _ => ({ page with board := { columns := updateFirst (fun c0 => c0.id == c) (fun _ => ({ col with cards := col.cards.take k ++ col.cards.drop (k + 1), updatedAt := now } : Column)) page.board.columns }, updatedAt := now } : Page)) s.workspace.pages).find? (fun pg => pg.id == p) = some ({ page with board := { columns := updateFirst (fun c0 => c0.id == c) (fun _ => ({ col with cards := col.cards.take k ++ col.cards.drop (k + 1), updatedAt := now } : Column)) page.board.columns }, updatedAt := now } : Page) :=
      find?_updateFirst_const _ hfp hpid
    rw [hf1]
    dsimp only
    have hf2 : (updateFirst (fun c0 => c0.id == c) (fun _ => ({ col with cards := col.cards.take k ++ col.cards.drop (k + 1), updatedAt := now } : Column)) page.board.columns).find? (fun c0 => c0.id == c) = some ({ col with cards := col.cards.take k ++ col.cards.drop (k + 1), updatedAt := now } : Column) :=
      find?_updateFirst_const _ hfc hcid
    rw [hf2]
    dsimp only
    rw [stripWorkspace, stripWorkspace]
    dsimp only
    have hcollapseP : updateFirst (fun pg => pg.id == p) (fun _ => ({ page with board := { columns := updateFirst (fun c0 => c0.id == c) (fun _ => ({ col with cards := spliceIn k { card with columnId := c, updatedAt := now } (col.cards.take k ++ col.cards.drop (k + 1)), updatedAt := now } : Column)) (updateFirst (fun c0 => c0.id == c) (fun _ => ({ col with cards := col.cards.take k ++ col.cards.drop (k + 1), updatedAt := now } : Column)) page.board.columns) }, updatedAt := now } : Page)) (updateFirst (fun pg => pg.id == p) (fun _ => ({ page with board := { columns := updateFirst (fun c0 => c0.id == c) (fun _ => ({ col with cards := col.cards.take k ++ col.cards.drop (k + 1), updatedAt := now } : Column)) page.board.columns }, updatedAt := now } : Page)) s.workspace.pages) =
        updateFirst (fun pg => pg.id == p) (fun _ => ({ page with board := { columns := updateFirst (fun c0 => c0.id == c) (fun _ => ({ col with cards := spliceIn k { card with columnId := c, updatedAt := now } (col.cards.take k ++ col.cards.drop (k + 1)), updatedAt := now } : Column)) (updateFirst (fun c0 => c0.id == c) (fun _ => ({ col with cards := col.cards.take k ++ col.cards.drop (k + 1), updatedAt := now } : Column)) page.board.columns) }, updatedAt := now } : Page)) s.workspace.pages :=
      updateFirst_updateFirst_const _ s.workspace.pages hpid
    have hmapeq : (updateFirst (fun pg => pg.id == p) (fun _ => ({ page with board := { columns := updateFirst (fun c0 => c0.id == c) (fun _ => ({ col with cards := spliceIn k { card with columnId := c, updatedAt := now } (col.cards.take k ++ col.cards.drop (k + 1)), updatedAt := now } : Column)) (updateFirst (fun c0 => c0.id == c) (fun _ => ({ col with cards := col.cards.take k ++ col.cards.drop (k + 1), updatedAt := now } : Column)) page.board.columns) }, updatedAt := now } : Page)) (updateFirst (fun pg => pg.id == p) (fun _ => ({ page with board := { columns := updateFirst (fun c0 => c0.id == c) (fun _ => ({ col with cards := col.cards.take k ++ col.cards.drop (k + 1), updatedAt := now } : Column)) page.board.columns }, updatedAt := now } : Page)) s.workspace.pages)).map stripPage =
        s.workspace.pages.map stripPage := by
      rw [hcollapseP]
      exact map_updateFirst_const _ hfp hsp
    rw [hmapeq]
  · rfl

/-- Witness for C6: the identity move of the starter card at index 0 of
its column in the default workspace. -/
theorem moveCard_identity_witness :
    ((defaultState "p1" "c1" "k1" 0).workspace.pages.find? (fun pg => pg.id == "p1") =
        some (welcomePage "p1" "c1" "k1" 0) ∧
      (welcomePage "p1" "c1" "k1" 0).board.columns.find? (fun c0 => c0.id == "c1") =
        some (welcomeColumn "c1" "k1" 0) ∧
      (welcomeColumn "c1" "k1" 0).cards[0]? = some (welcomeCard "c1" "k1" 0) ∧
      (welcomeCard "c1" "k1" 0).columnId = "c1") ∧
    (stripWorkspace (moveCard 7 ⟨"p1", "c1", "k1"⟩ ⟨"p1", "c1", some 0⟩
          (defaultState "p1" "c1" "k1" 0)).workspace =
        stripWorkspace (defaultState "p1" "c1" "k1" 0).workspace ∧
      (moveCard 7 ⟨"p1", "c1", "k1"⟩ ⟨"p1", "c1", some 0⟩
          (defaultState "p1" "c1" "k1" 0)).selectedCardId =
        (defaultState "p1" "c1" "k1" 0).selectedCardId) :=
  ⟨⟨by decide, by decide, by decide, by decide⟩,
    moveCard_identity 7 "p1" "c1" "k1" 0 (defaultState "p1" "c1" "k1" 0)
      (welcomePage "p1" "c1" "k1" 0) (welcomeColumn "c1" "k1" 0) (welcomeCard "c1" "k1" 0)
      (by decide) (by decide) (by decide) (by decide) (by decide) (by decide)⟩

/-- C7: `updateCard` on an existing page/column/card refreshes `updatedAt`
to the current clock on the card, its owning column, its owning page, and
the workspace — hence to a value later than or equal to each previous
timestamp whenever the clock is monotone — while every `createdAt` on the
path is untouched (the update itself carrying no `id` or `createdAt`
field, so the card stays addressable and its creation time is preserved). -/
theorem updateCard_cascade (now : Nat) (pid cid kid : String) (u : CardUpdate)
    (s : WorkspaceState) (page : Page) (col : Column) (card : Card)
    (hfp : s.workspace.pages.find? (fun pg => pg.id == pid) = some page)
    (hfc : page.board.columns.find? (fun c0 => c0.id == cid) = some col)
    (hfk : col.cards.find? (fun c0 => c0.id == kid) = some card)
    (hid : u.id = none) (hcr : u.createdAt = none)
    (hclock : card.updatedAt ≤ now ∧ col.updatedAt ≤ now ∧
      page.updatedAt ≤ now ∧ s.workspace.updatedAt ≤ now) :
    (findCardIn (updateCard now pid cid kid u s).workspace pid cid kid).map Card.updatedAt =
      some now ∧
    (findCardIn (updateCard now pid cid kid u s).workspace pid cid kid).map Card.createdAt =
      some card.createdAt ∧
    (findColumnIn (updateCard now pid cid kid u s).workspace pid cid).map Column.updatedAt =
      some now ∧
    (findColumnIn (updateCard now pid cid kid u s).workspace pid cid).map Column.createdAt =
      some col.createdAt ∧
    (findPage (updateCard now pid cid kid u s).workspace pid).map Page.updatedAt = some now ∧
    (findPage (updateCard now pid cid kid u s).workspace pid).map Page.createdAt =
      some page.createdAt ∧
    (updateCard now pid cid kid u s).workspace.updatedAt = now ∧
    (updateCard now pid cid kid u s).workspace.createdAt = s.workspace.createdAt ∧
    card.updatedAt ≤ now ∧ col.updatedAt ≤ now ∧
    page.updatedAt ≤ now ∧ s.workspace.updatedAt ≤ now := by
  have hpid := List.find?_some hfp
  have hcid := List.find?_some hfc
  have hkid := List.find?_some hfk
  have hkid2 : ((applyUpdate now u card).id == kid) = true := by
    rw [applyUpdate]
    dsimp only
    rw [hid]
    exact hkid
  have estate : updateCard now pid cid kid u s =
      { s with workspace := { s.workspace with
          pages := updateFirst (fun pg => pg.id == pid)
            (fun _ => ({ page with board := { columns := updateFirst (fun c0 => c0.id == cid) (fun _ => ({ col with cards := updateFirst (fun c0 => c0.id == kid) (applyUpdate now u) col.cards, updatedAt := now } : Column)) page.board.columns }, updatedAt := now } : Page))
            s.workspace.pages
          updatedAt := now } } := by
    rw [updateCard, hfp]
    dsimp only
    rw [hfc]
    dsimp only
    rw [hfk]
  have hf1 : (updateFirst (fun pg => pg.id == pid)
        (fun _ => ({ page with board := { columns := updateFirst (fun c0 => c0.id == cid) (fun _ => ({ col with cards := updateFirst (fun c0 => c0.id == kid) (applyUpdate now u) col.cards, updatedAt := now } : Column)) page.board.columns }, updatedAt := now } : Page))
        s.workspace.pages).find? (fun pg => pg.id == pid) =
      some { page with board := { columns := updateFirst (fun c0 => c0.id == cid) (fun _ => ({ col with cards := updateFirst (fun c0 => c0.id == kid) (applyUpdate now u) col.cards, updatedAt := now } : Column)) page.board.columns }, updatedAt := now } :=
    find?_updateFirst_const _ hfp hpid
  have hf2 : (updateFirst (fun c0 => c0.id == cid)
        (fun _ => ({ col with cards := updateFirst (fun c0 => c0.id == kid) (applyUpdate now u) col.cards, updatedAt := now } : Column))
        page.board.columns).find? (fun c0 => c0.id == cid) =
      some { col with cards := updateFirst (fun c0 => c0.id == kid) (applyUpdate now u) col.cards, updatedAt := now } :=
    find?_updateFirst_const _ hfc hcid
  have hf3 : (updateFirst (fun c0 => c0.id == kid) (applyUpdate now u) col.cards).find?
        (fun c0 => c0.id == kid) = some (applyUpdate now u card) :=
    find?_updateFirst (applyUpdate now u) hfk hkid2
  refine ⟨?_, ?_, ?_, ?_, ?_, ?_, ?_, ?_, hclock.1, hclock.2.1, hclock.2.2.1, hclock.2.2.2⟩
  · rw [estate, findCardIn, findColumnIn, findPage]
    dsimp only
    rw [hf1]
    dsimp only [Option.bind]
    rw [hf2]
    dsimp only [Option.bind]
    rw [hf3]
    rfl
  · rw [estate, findCardIn, findColumnIn, findPage]
    dsimp only
    rw [hf1]
    dsimp only [Option.bind]
    rw [hf2]
    dsimp only [Option.bind]
    rw [hf3]
    dsimp only [Option.map]
    rw [applyUpdate]
    dsimp only
    rw [hcr]
    rfl
  · rw [estate, findColumnIn, findPage]
    dsimp only
    rw [hf1]
    dsimp only [Option.bind]
    rw [hf2]
    rfl
  · rw [estate, findColumnIn, findPage]
    dsimp only
    rw [hf1]
    dsimp only [Option.bind]
    rw [hf2]
    rfl
  · rw [estate, findPage]
    dsimp only
    rw [hf1]
    rfl
  · rw [estate, findPage]
    dsimp only
    rw [hf1]
    rfl
  · rw [estate]
  · rw [estate]

/-- Witness for C7: retitling the starter card of the default workspace at
clock 5 refreshes the whole `updatedAt` chain to 5 and preserves every
`createdAt`. -/
theorem updateCard_cascade_witness :
    ((defaultState "p1" "c1" "k1" 0).workspace.pages.find? (fun pg => pg.id == "p1") =
        some (welcomePage "p1" "c1" "k1" 0) ∧
      ({ title := some "T" } : CardUpdate).id = none ∧
      ({ title := some "T" } : CardUpdate).createdAt = none ∧
      (welcomeCard "c1" "k1" 0).updatedAt ≤ 5) ∧
    ((findCardIn (updateCard 5 "p1" "c1" "k1" { title := some "T" }
          (defaultState "p1" "c1" "k1" 0)).workspace "p1" "c1" "k1").map Card.updatedAt =
        some 5 ∧
      (findCardIn (updateCard 5 "p1" "c1" "k1" { title := some "T" }
          (defaultState "p1" "c1" "k1" 0)).workspace "p1" "c1" "k1").map Card.createdAt =
        some (welcomeCard "c1" "k1" 0).createdAt ∧
      (findColumnIn (updateCard 5 "p1" "c1" "k1" { title := some "T" }
          (defaultState "p1" "c1" "k1" 0)).workspace "p1" "c1").map Column.updatedAt =
        some 5 ∧
      (findColumnIn (updateCard 5 "p1" "c1" "k1" { title := some "T" }
          (defaultState "p1" "c1" "k1" 0)).workspace "p1" "c1").map Column.createdAt =
        some (welcomeColumn "c1" "k1" 0).createdAt ∧
      (findPage (updateCard 5 "p1" "c1" "k1" { title := some "T" }
          (defaultState "p1" "c1" "k1" 0)).workspace "p1").map Page.updatedAt = some 5 ∧
      (findPage (updateCard 5 "p1" "c1" "k1" { title := some "T" }
          (defaultState "p1" "c1" "k1" 0)).workspace "p1").map Page.createdAt =
        some (welcomePage "p1" "c1" "k1" 0).createdAt ∧
      (updateCard 5 "p1" "c1" "k1" { title := some "T" }
          (defaultState "p1" "c1" "k1" 0)).workspace.updatedAt = 5 ∧
      (updateCard 5 "p1" "c1" "k1" { title := some "T" }
          (defaultState "p1" "c1" "k1" 0)).workspace.createdAt =
        (defaultState "p1" "c1" "k1" 0).workspace.createdAt ∧
      (welcomeCard "c1" "k1" 0).updatedAt ≤ 5 ∧ (welcomeColumn "c1" "k1" 0).updatedAt ≤ 5 ∧
      (welcomePage "p1" "c1" "k1" 0).updatedAt ≤ 5 ∧
      (defaultState "p1" "c1" "k1" 0).workspace.updatedAt ≤ 5) :=
  ⟨⟨by decide, rfl, rfl, by decide⟩,
    updateCard_cascade 5 "p1" "c1" "k1" { title := some "T" }
      (defaultState "p1" "c1" "k1" 0) (welcomePage "p1" "c1" "k1" 0)
      (welcomeColumn "c1" "k1" 0) (welcomeCard "c1" "k1" 0)
      (by decide) (by decide) (by decide) rfl rfl
      ⟨by decide, by decide, by decide, by decide⟩⟩

theorem foldl_add_cards (cols : List Column) (n : Nat) :
    cols.foldl (fun colAcc column => colAcc + column.cards.length) n =
      n + (cols.flatMap Column.cards).length := by
  induction cols generalizing n with
  | nil => simp
  | cons c cs ih =>
    rw [List.foldl_cons, ih, List.flatMap_cons, List.length_append, Nat.add_assoc]

theorem foldl_add_done (cols : List Column) (n : Nat) :
    cols.foldl (fun colAcc column =>
        colAcc + (column.cards.filter (fun card => card.status == Status.done)).length) n =
      n + ((cols.flatMap Column.cards).filter
        (fun card => card.status == Status.done)).length := by
  induction cols generalizing n with
  | nil => simp
  | cons c cs ih =>
    rw [List.foldl_cons, ih, List.flatMap_cons, List.filter_append, List.length_append,
      Nat.add_assoc]

theorem foldl_pages_total (pages : List Page) (n : Nat) :
    pages.foldl (fun acc page =>
        acc + page.board.columns.foldl
          (fun colAcc column => colAcc + column.cards.length) 0) n =
      n + (allCards pages).length := by
  induction pages generalizing n with
  | nil => simp [allCards]
  | cons pg ps ih =>
    rw [List.foldl_cons, ih, foldl_add_cards, Nat.zero_add]
    rw [show allCards (pg :: ps) =
        pg.board.columns.flatMap Column.cards ++ allCards ps from by
      rw [allCards, allCards, List.flatMap_cons, List.flatMap_append]]
    rw [List.length_append, Nat.add_assoc]

theorem foldl_pages_done (pages : List Page) (n : Nat) :
    pages.foldl (fun acc page =>
        acc + page.board.columns.foldl
          (fun colAcc column =>
            colAcc + (column.cards.filter (fun card => card.status == Status.done)).length)
          0) n =
      n + ((allCards pages).filter (fun card => card.status == Status.done)).length := by
  induction pages generalizing n with
  | nil => simp [allCards]
  | cons pg ps ih =>
    rw [List.foldl_cons, ih, foldl_add_done, Nat.zero_add]
    rw [show allCards (pg :: ps) =
        pg.board.columns.flatMap Column.cards ++ allCards ps from by
      rw [allCards, allCards, List.flatMap_cons, List.flatMap_append]]
    rw [List.filter_append, List.length_append, Nat.add_assoc]

theorem foldl_pages_cols (pages : List Page) (n : Nat) :
    pages.foldl (fun acc page => acc + page.board.columns.length) n =
      n + (pages.flatMap (fun p => p.board.columns)).length := by
  induction pages generalizing n with
  | nil => simp
  | cons pg ps ih =>
    rw [List.foldl_cons, ih, List.flatMap_cons, List.length_append, Nat.add_assoc]

/-- C9: the analytics summary is correct: `totalCards` is the number of
cards in all columns of all pages, `completedCards` the number of those
with status `done`, `completionRate` their exact quotient when any card
exists and 0 otherwise, and `pagesCount`/`columnsCount` the number of
pages and columns. -/
theorem generateAnalytics_correct (pages : List Page) :
    generateAnalytics pages =
      { totalCards := (allCards pages).length
        completedCards :=
          ((allCards pages).filter (fun card => card.status == Status.done)).length
        completionRate :=
          if 0 < (allCards pages).length
          then (((allCards pages).filter (fun card => card.status == Status.done)).length : ℚ) /
            ((allCards pages).length : ℚ)
          else 0
        pagesCount := pages.length
        columnsCount := (pages.flatMap (fun p => p.board.columns)).length } := by
  rw [generateAnalytics]
  rw [foldl_pages_total pages 0, foldl_pages_done pages 0, foldl_pages_cols pages 0]
  simp [Nat.zero_add]
